import Mathlib

/-!
# A verification development for the freeglut 3D view demo (`src/main.cpp`)

The program is a set of GLUT callbacks (`mouse`, `motion`, `keypress`,
`skeypress`, `display`) that read and write a handful of global variables.
The embedding below turns the globals into one record, `State`, and every
callback into a function on that record.

Conventions of the embedding

* `float`/`double` variables are modelled by an arbitrary linearly ordered
  field `K` with exact arithmetic (`ℚ` for evaluation, `ℝ` where `sin` and
  `cos` are needed).  Rounding is not modelled.
* `int` is a 32 bit twos complement integer: the result of `x - mouse_x` is
  reduced by `wrapInt 32`.  The width of `long` is not fixed by the source
  (64 bits on LP64 systems, 32 bits with the MSVC compiler that the
  `_MSC_VER` pragma of the source caters for); it is the parameter `LB` of
  the functions that compute with `long` values.
* Calls into GLUT/GL/libc that have an effect outside the globals are recorded
  in the state: `glutPostRedisplay` increments `redisplay_posts`,
  `glutIdleFunc` sets `idle_registered`, `printf` appends to `stdout`, the
  window requests are appended to `window_requests`.
* `exit(0)` and the integer division by zero are the two ways a callback
  does not return; they are the `Halt` values of an `Except`.
-/

namespace Opengl3d

/-! ## Machine integers -/

/-- Twos complement representative of `z` on `w` bits, in `[-2^(w-1), 2^(w-1))`. -/
def wrapInt (w : Nat) (z : Int) : Int :=
  (z + 2 ^ (w - 1)) % 2 ^ w - 2 ^ (w - 1)

/-- Width of the C type `int`. -/
def INT_BITS : Nat := 32

/-! ## Constants of `GL/freeglut_std.h` used by the source -/

/-- Value of `GLUT_LEFT_BUTTON` in `freeglut_std.h`. -/
def GLUT_LEFT_BUTTON : Int := 0
/-- Value of `GLUT_DOWN` in `freeglut_std.h`. -/
def GLUT_DOWN : Int := 0
/-- Value of `GLUT_KEY_F1` in `freeglut_std.h`. -/
def GLUT_KEY_F1 : Int := 1
/-- Value of `GLUT_ACTIVE_ALT` in `freeglut_std.h`. -/
def GLUT_ACTIVE_ALT : Int := 4

/-! ## Data model -/

/-- Three floats: a `float[3]` array (`cam_pan`, `up`, `right`) or the three
arguments of `glVertex3f`/`glNormal3f`. Index 0 is `x`, 1 is `y`, 2 is `z`. -/
structure Vec3 (K : Type) where
  x : K
  y : K
  z : K
deriving DecidableEq, Repr

/-- The `sin`, `cos` of `math.h` and the constant `M_PI`, on the scalar type. -/
structure CMath (K : Type) where
  sin : K → K
  cos : K → K
  M_PI : K

/-- A request sent to the window system by `keypress`. -/
inductive WinReq where
  | fullScreen
  | reshapeWindow (w h : Int)
deriving DecidableEq, Repr

/-- How a callback can fail to return. -/
inductive Halt where
  | exit (code : Int)
  | divideByZero
deriving DecidableEq, Repr

/-- The global variables of `main.cpp` (lines 146-153), the function-static
variables of `keypress`, and the record of the calls that leave the program. -/
structure State (K : Type) where
  win_width : Int
  win_height : Int
  cam_theta : K
  cam_phi : K
  cam_dist : K
  cam_pan : Vec3 K
  mouse_x : Int
  mouse_y : Int
  bnstate : Fin 8 → Int
  anim : Int
  help : Int
  anim_start : Int
  nframes : Int
  fullscr : Int
  prev_xsz : Int
  prev_ysz : Int
  idle_registered : Bool
  redisplay_posts : Nat
  stdout : String
  window_requests : List WinReq

/-- What `glutGet` and `glutGetModifiers` answer during one callback. -/
structure Glut where
  elapsed_time : Int
  modifiers : Int
  window_width : Int
  window_height : Int

/-- The state at program start: every global is zero except
`cam_phi = 25` and `cam_dist = 8` (line 147). -/
def initial (K : Type) [LinearOrderedField K] : State K where
  win_width := 0
  win_height := 0
  cam_theta := 0
  cam_phi := 25
  cam_dist := 8
  cam_pan := ⟨0, 0, 0⟩
  mouse_x := 0
  mouse_y := 0
  bnstate := fun _ => 0
  anim := 0
  help := 0
  anim_start := 0
  nframes := 0
  fullscr := 0
  prev_xsz := 0
  prev_ysz := 0
  idle_registered := false
  redisplay_posts := 0
  stdout := ""
  window_requests := []

/-- The call `glutPostRedisplay()`. -/
def glutPostRedisplay {K : Type} (s : State K) : State K :=
  { s with redisplay_posts := s.redisplay_posts + 1 }

/-! ## Mouse callbacks (lines 514-570) -/

/-- The callback `mouse(bn, st, x, y)`. The parameter `bn` stands for the index
`bidx = bn - GLUT_LEFT_BUTTON` (`GLUT_LEFT_BUTTON` is 0). It is a `Fin 8`:
`bnstate` has eight entries and a store outside it has no defined result. -/
def mouse {K : Type} (s : State K) (bn : Fin 8) (st x y : Int) : State K :=
  { s with
    bnstate := Function.update s.bnstate bn (if st = GLUT_DOWN then 1 else 0)
    mouse_x := x
    mouse_y := y }

/-- The `if (bnstate[0])` block of `motion`. -/
def motion_orbit {K : Type} [LinearOrderedField K] (dx dy : Int) (s : State K) : State K :=
  if s.bnstate 0 ≠ 0 then
    let s1 := { s with cam_theta := s.cam_theta + (dx : K) * 0.5
                       cam_phi := s.cam_phi + (dy : K) * 0.5 }
    let s2 := if s1.cam_phi < -90 then { s1 with cam_phi := -90 } else s1
    let s3 := if s2.cam_phi > 90 then { s2 with cam_phi := 90 } else s2
    glutPostRedisplay s3
  else s

/-- The `if (bnstate[1])` block of `motion`. -/
def motion_pan {K : Type} [LinearOrderedField K] (m : CMath K) (dx dy : Int)
    (s : State K) : State K :=
  if s.bnstate 1 ≠ 0 then
    let theta := s.cam_theta * m.M_PI / 180
    let phi := s.cam_phi * m.M_PI / 180
    let up : Vec3 K := ⟨-m.sin theta * m.sin phi, -m.cos phi, m.cos theta * m.sin phi⟩
    let right : Vec3 K := ⟨m.cos theta, 0, m.sin theta⟩
    glutPostRedisplay
      { s with cam_pan :=
          ⟨s.cam_pan.x + (right.x * (dx : K) + up.x * (dy : K)) * 0.01,
           s.cam_pan.y + up.y * (dy : K) * 0.01,
           s.cam_pan.z + (right.z * (dx : K) + up.z * (dy : K)) * 0.01⟩ }
  else s

/-- The `if (bnstate[2])` block of `motion`. -/
def motion_zoom {K : Type} [LinearOrderedField K] (dy : Int) (s : State K) : State K :=
  if s.bnstate 2 ≠ 0 then
    let s1 := { s with cam_dist := s.cam_dist + (dy : K) * 0.1 }
    let s2 := if s1.cam_dist < 0 then { s1 with cam_dist := 0 } else s1
    glutPostRedisplay s2
  else s

/-- The value of `dx` in `motion`: `x - mouse_x` as an `int`. -/
def motion_dx {K : Type} (s : State K) (x : Int) : Int := wrapInt INT_BITS (x - s.mouse_x)

/-- The value of `dy` in `motion`: `y - mouse_y` as an `int`. -/
def motion_dy {K : Type} (s : State K) (y : Int) : Int := wrapInt INT_BITS (y - s.mouse_y)

/-- The callback `motion(x, y)`. `dx | dy` is `Int.lor`, the bitwise or of two's
complement integers. -/
def motion {K : Type} [LinearOrderedField K] (m : CMath K) (s : State K) (x y : Int) :
    State K :=
  let dx := motion_dx s x
  let dy := motion_dy s y
  let s0 := { s with mouse_x := x, mouse_y := y }
  if Int.lor dx dy = 0 then s0
  else motion_zoom dy (motion_pan m dx dy (motion_orbit dx dy s0))

/-- A pointer event delivered by GLUT. -/
inductive PointerEvent where
  | button (bn : Fin 8) (st x y : Int)
  | drag (x y : Int)

/-- Delivery of one pointer event to its callback. -/
def PointerEvent.deliver {K : Type} [LinearOrderedField K] (m : CMath K) (s : State K) :
    PointerEvent → State K
  | .button bn st x y => mouse s bn st x y
  | .drag x y => motion m s x y

/-- Delivery of a sequence of pointer events, in arrival order. -/
def deliverAll {K : Type} [LinearOrderedField K] (m : CMath K) (s : State K)
    (es : List PointerEvent) : State K :=
  es.foldl (PointerEvent.deliver m) s

/-- The invariant of the camera: pitch in `[-90, 90]`, distance non-negative. -/
def CameraInv {K : Type} [LinearOrderedField K] (s : State K) : Prop :=
  -90 ≤ s.cam_phi ∧ s.cam_phi ≤ 90 ∧ 0 ≤ s.cam_dist

/-! ## Keyboard callbacks (lines 435-500) -/

/-- The conversion `%ld` of `printf`: the decimal digits of the value, with a
minus sign for a negative one, no padding. -/
def fmt_ld (z : Int) : String := toString z

/-- The text written by `printf("framerate: %ld.%ld fps\n", fps / 100, fps % 100)`.
`/` and `%` of C truncate towards zero. -/
def framerate_text (fps : Int) : String :=
  "framerate: " ++ fmt_ld (fps.tdiv 100) ++ "." ++ fmt_ld (fps.tmod 100) ++ " fps\n"

/-- The local `tm` of `keypress`: `glutGet(GLUT_ELAPSED_TIME) - anim_start` as a
`long` of `LB` bits. -/
def keypress_tm {K : Type} (LB : Nat) (g : Glut) (s : State K) : Int :=
  wrapInt LB (g.elapsed_time - s.anim_start)

/-- The local `fps` of `keypress`: `(nframes * 100000) / tm` in `long`
arithmetic, the division truncating. It is evaluated only for `tm ≠ 0`. -/
def keypress_fps {K : Type} (LB : Nat) (g : Glut) (s : State K) : Int :=
  wrapInt LB ((wrapInt LB (s.nframes * 100000)).tdiv (keypress_tm LB g s))

/-- The case of the space key in `keypress`. `LB` is the width of `long`. The division
`(nframes * 100000) / tm` is not guarded in the source: with `tm = 0` the
callback does not return. -/
def keypress_space {K : Type} (LB : Nat) (g : Glut) (s : State K) : Except Halt (State K) :=
  let s1 := { s with anim := Int.xor s.anim 1 }
  let s2 := { s1 with idle_registered := decide (s1.anim ≠ 0) }
  let s3 := glutPostRedisplay s2
  if s3.anim ≠ 0 then
    .ok { s3 with anim_start := g.elapsed_time, nframes := 0 }
  else
    if keypress_tm LB g s3 = 0 then .error Halt.divideByZero
    else .ok { s3 with stdout := s3.stdout ++ framerate_text (keypress_fps LB g s3) }

/-- The case of the key `f` in `keypress`. -/
def keypress_fullscreen {K : Type} (g : Glut) (s : State K) : State K :=
  let s1 := { s with fullscr := Int.xor s.fullscr 1 }
  if s1.fullscr ≠ 0 then
    { s1 with prev_xsz := g.window_width
              prev_ysz := g.window_height
              window_requests := s1.window_requests ++ [WinReq.fullScreen] }
  else
    { s1 with window_requests :=
        s1.window_requests ++ [WinReq.reshapeWindow s1.prev_xsz s1.prev_ysz] }

/-- The callback `keypress(key, x, y)`; the pointer position is not used.
27 is escape, 113 `q`, 32 the space, 10 and 13 the line ends, 102 `f`. -/
def keypress {K : Type} (LB : Nat) (g : Glut) (s : State K) (key : Nat) :
    Except Halt (State K) :=
  if key = 27 ∨ key = 113 then .error (Halt.exit 0)
  else if key = 32 then keypress_space LB g s
  else if key = 10 ∨ key = 13 then
    if Int.land g.modifiers GLUT_ACTIVE_ALT = 0 then .ok s
    else .ok (keypress_fullscreen g s)
  else if key = 102 then .ok (keypress_fullscreen g s)
  else .ok s

/-- The callback `skeypress(key, x, y)`. -/
def skeypress {K : Type} (s : State K) (key : Int) : State K :=
  if key = GLUT_KEY_F1 then glutPostRedisplay { s with help := Int.xor s.help 1 }
  else s

/-- The callback `idle()`. -/
def idle {K : Type} (s : State K) : State K := glutPostRedisplay s

/-! ## Drawing (lines 69-142 and 220-395) -/

/-- One quad between `glBegin(GL_QUADS)` and `glEnd()`: the normal in effect
and the four vertices in the order of the `glVertex3f` calls. -/
structure Quad (K : Type) where
  normal : Vec3 K
  v1 : Vec3 K
  v2 : Vec3 K
  v3 : Vec3 K
  v4 : Vec3 K
deriving DecidableEq, Repr

/-- The six quads emitted by `DrawCube`, in source order: top, bottom, front,
back, left, right. The material and light calls do not emit geometry. -/
def DrawCube {K : Type} [LinearOrderedField K]
    (centerPosX centerPosY centerPosZ Clength Cbreadth Cheight : K) : List (Quad K) :=
  let halfLength := Clength * 0.5
  let halfbreadth := Cbreadth * 0.5
  let halfheight := Cheight * 0.5
  [ { normal := ⟨0, 1, 0⟩
      v1 := ⟨centerPosX - halfLength, centerPosY + halfheight, centerPosZ - halfbreadth⟩
      v2 := ⟨centerPosX + halfLength, centerPosY + halfheight, centerPosZ - halfbreadth⟩
      v3 := ⟨centerPosX + halfLength, centerPosY + halfheight, centerPosZ + halfbreadth⟩
      v4 := ⟨centerPosX - halfLength, centerPosY + halfheight, centerPosZ + halfbreadth⟩ },
    { normal := ⟨0, -1, 0⟩
      v1 := ⟨centerPosX - halfLength, centerPosY - halfheight, centerPosZ - halfbreadth⟩
      v2 := ⟨centerPosX - halfLength, centerPosY - halfheight, centerPosZ + halfbreadth⟩
      v3 := ⟨centerPosX + halfLength, centerPosY - halfheight, centerPosZ + halfbreadth⟩
      v4 := ⟨centerPosX + halfLength, centerPosY - halfheight, centerPosZ - halfbreadth⟩ },
    { normal := ⟨0, 0, 1⟩
      v1 := ⟨centerPosX - halfLength, centerPosY - halfheight, centerPosZ + halfbreadth⟩
      v2 := ⟨centerPosX + halfLength, centerPosY - halfheight, centerPosZ + halfbreadth⟩
      v3 := ⟨centerPosX + halfLength, centerPosY + halfheight, centerPosZ + halfbreadth⟩
      v4 := ⟨centerPosX - halfLength, centerPosY + halfheight, centerPosZ + halfbreadth⟩ },
    { normal := ⟨0, 0, -1⟩
      v1 := ⟨centerPosX - halfLength, centerPosY - halfheight, centerPosZ - halfbreadth⟩
      v2 := ⟨centerPosX - halfLength, centerPosY + halfheight, centerPosZ - halfbreadth⟩
      v3 := ⟨centerPosX + halfLength, centerPosY + halfheight, centerPosZ - halfbreadth⟩
      v4 := ⟨centerPosX + halfLength, centerPosY - halfheight, centerPosZ - halfbreadth⟩ },
    { normal := ⟨-1, 0, 0⟩
      v1 := ⟨centerPosX - halfLength, centerPosY - halfheight, centerPosZ + halfbreadth⟩
      v2 := ⟨centerPosX - halfLength, centerPosY + halfheight, centerPosZ + halfbreadth⟩
      v3 := ⟨centerPosX - halfLength, centerPosY + halfheight, centerPosZ - halfbreadth⟩
      v4 := ⟨centerPosX - halfLength, centerPosY - halfheight, centerPosZ - halfbreadth⟩ },
    { normal := ⟨1, 0, 0⟩
      v1 := ⟨centerPosX + halfLength, centerPosY - halfheight, centerPosZ + halfbreadth⟩
      v2 := ⟨centerPosX + halfLength, centerPosY - halfheight, centerPosZ - halfbreadth⟩
      v3 := ⟨centerPosX + halfLength, centerPosY + halfheight, centerPosZ - halfbreadth⟩
      v4 := ⟨centerPosX + halfLength, centerPosY + halfheight, centerPosZ + halfbreadth⟩ } ]

/-- Difference of two points. -/
def Vec3.sub {K : Type} [LinearOrderedField K] (a b : Vec3 K) : Vec3 K :=
  ⟨a.x - b.x, a.y - b.y, a.z - b.z⟩

/-- Cross product. -/
def Vec3.cross {K : Type} [LinearOrderedField K] (a b : Vec3 K) : Vec3 K :=
  ⟨a.y * b.z - a.z * b.y, a.z * b.x - a.x * b.z, a.x * b.y - a.y * b.x⟩

/-- Dot product. -/
def Vec3.dot {K : Type} [LinearOrderedField K] (a b : Vec3 K) : K :=
  a.x * b.x + a.y * b.y + a.z * b.z

/-- The winding of a quad against its normal: `((v2 - v1) × (v3 - v2)) · normal`.
It is positive exactly when `v1, v2, v3` turn counter-clockwise for a viewer
that the normal points to. -/
def Quad.winding {K : Type} [LinearOrderedField K] (q : Quad K) : K :=
  ((q.v2.sub q.v1).cross (q.v3.sub q.v2)).dot q.normal

/-! ### The matrix stacks of OpenGL -/

/-- The two matrix stacks the program selects with `glMatrixMode`. -/
inductive MatrixMode where
  | modelview
  | projection
deriving DecidableEq, Repr

/-- The meaning of the transform calls in a type `M` of transforms: the matrix
by which each call multiplies the current matrix on the right. -/
structure XfSem (K M : Type) where
  translate : K → K → K → M
  rotate : K → K → K → K → M
  scale : K → K → K → M
  ortho : K → K → K → K → K → K → M

/-- What a draw call hands to the pipeline. -/
inductive Primitive (K : Type) where
  | quads (qs : List (Quad K))
  | solidSphere (radius : K) (nslices nstacks : Int)
  | bitmapString (x y : K) (text : String)
deriving DecidableEq, Repr

/-- The part of the OpenGL state that `display` uses: the matrix mode, the
current matrix and the saved matrices of both stacks, the current normal, and
the list of primitives drawn so far, each with the modelview matrix that was
current when it was drawn. -/
structure GLState (K M : Type) where
  mode : MatrixMode
  modelview : M
  modelview_saved : List M
  projection : M
  projection_saved : List M
  normal : Vec3 K
  drawn : List (Primitive K × M)

/-- The call `glMatrixMode(mode)`. -/
def glMatrixMode {K M : Type} (mode : MatrixMode) (g : GLState K M) : GLState K M :=
  { g with mode := mode }

/-- Right multiplication of the current matrix of the selected stack. -/
def glMultMatrix {K M : Type} [Mul M] (x : M) (g : GLState K M) : GLState K M :=
  match g.mode with
  | .modelview => { g with modelview := g.modelview * x }
  | .projection => { g with projection := g.projection * x }

/-- The call `glLoadIdentity()`. -/
def glLoadIdentity {K M : Type} [One M] (g : GLState K M) : GLState K M :=
  match g.mode with
  | .modelview => { g with modelview := 1 }
  | .projection => { g with projection := 1 }

/-- The call `glPushMatrix()`: the current matrix is saved, and stays current. -/
def glPushMatrix {K M : Type} (g : GLState K M) : GLState K M :=
  match g.mode with
  | .modelview => { g with modelview_saved := g.modelview :: g.modelview_saved }
  | .projection => { g with projection_saved := g.projection :: g.projection_saved }

/-- The call `glPopMatrix()`: the matrix saved last becomes current. On an
empty stack the call is an error that changes nothing. -/
def glPopMatrix {K M : Type} (g : GLState K M) : GLState K M :=
  match g.mode with
  | .modelview =>
    match g.modelview_saved with
    | [] => g
    | t :: rest => { g with modelview := t, modelview_saved := rest }
  | .projection =>
    match g.projection_saved with
    | [] => g
    | t :: rest => { g with projection := t, projection_saved := rest }

/-- The calls `glTranslatef(x, y, z)` and `glTranslated(x, y, z)`. -/
def glTranslatef {K M : Type} [Mul M] (sem : XfSem K M) (x y z : K) (g : GLState K M) :
    GLState K M :=
  glMultMatrix (sem.translate x y z) g

/-- The call `glRotatef(angle, x, y, z)`, the angle in degrees. -/
def glRotatef {K M : Type} [Mul M] (sem : XfSem K M) (angle x y z : K) (g : GLState K M) :
    GLState K M :=
  glMultMatrix (sem.rotate angle x y z) g

/-- The call `glScalef(x, y, z)`. -/
def glScalef {K M : Type} [Mul M] (sem : XfSem K M) (x y z : K) (g : GLState K M) : GLState K M :=
  glMultMatrix (sem.scale x y z) g

/-- The call `glOrtho(l, r, b, t, n, f)`. -/
def glOrtho {K M : Type} [Mul M] (sem : XfSem K M) (l r b t n f : K) (g : GLState K M) :
    GLState K M :=
  glMultMatrix (sem.ortho l r b t n f) g

/-- A primitive is drawn under the current modelview matrix. -/
def emit {K M : Type} (p : Primitive K) (g : GLState K M) : GLState K M :=
  { g with drawn := g.drawn ++ [(p, g.modelview)] }

/-- A call of `DrawCube` inside `display`: six quads; the normal set last stays
the current normal. -/
def drawCube {K M : Type} [LinearOrderedField K] (cx cy cz l b h : K) (g : GLState K M) :
    GLState K M :=
  { emit (Primitive.quads (DrawCube cx cy cz l b h)) g with normal := ⟨1, 0, 0⟩ }

/-- The array `helpprompt` without its terminating null. -/
def helpprompt : List String := ["Press F1 for help"]

/-- The array `helptext` without its terminating null. -/
def helptext : List String :=
  [ "Rotate: left mouse drag",
    " Scale: right mouse drag up/down",
    "   Pan: middle mouse drag",
    "",
    "Toggle fullscreen: f",
    "Toggle animation: space",
    "Quit: escape" ]

/-- The body of the `for` loop of `print_help` for line `i` and the following
ones: each line is written twice, at two raster positions. -/
def print_lines {K M : Type} [LinearOrderedField K] (win_height : Int) :
    Nat → List String → GLState K M → GLState K M
  | _, [], g => g
  | i, t :: rest, g =>
    let g1 := emit (Primitive.bitmapString 7 ((win_height - (i + 1) * 20 - 2 : Int) : K) t) g
    let g2 := emit (Primitive.bitmapString 5 ((win_height - (i + 1) * 20 : Int) : K) t) g1
    print_lines win_height (i + 1) rest g2

/-- The function `print_help`: its matrix calls and the text it writes. The
attribute and colour calls are left out. -/
def print_help {K M : Type} [LinearOrderedField K] [Mul M] [One M] (sem : XfSem K M)
    (s : State K) (g : GLState K M) : GLState K M :=
  let g := glMatrixMode .modelview g
  let g := glLoadIdentity g
  let g := glMatrixMode .projection g
  let g := glPushMatrix g
  let g := glLoadIdentity g
  let g := glOrtho sem 0 (s.win_width : K) 0 (s.win_height : K) (-1) 1 g
  let text := if s.help ≠ 0 then helptext else helpprompt
  let g := print_lines s.win_height 0 text g
  let g := glPopMatrix g
  glMatrixMode .modelview g

/-- The camera part of `display`, lines 228-233. -/
def display_camera {K M : Type} [LinearOrderedField K] [Mul M] [One M] (sem : XfSem K M)
    (s : State K) (g : GLState K M) : GLState K M :=
  let g := glMatrixMode .modelview g
  let g := glLoadIdentity g
  let g := glTranslatef sem 0 0 (-s.cam_dist) g
  let g := glRotatef sem s.cam_phi 1 0 0 g
  let g := glRotatef sem s.cam_theta 0 1 0 g
  glTranslatef sem s.cam_pan.x s.cam_pan.y s.cam_pan.z g

/-- The animation part of `display`, lines 237-244: between a push and a pop. -/
def display_spin {K M : Type} [LinearOrderedField K] [Mul M] (sem : XfSem K M) (LB : Nat)
    (now : Int) (s : State K) (g : GLState K M) : GLState K M :=
  let g := glPushMatrix g
  let g :=
    if s.anim ≠ 0 then
      let tm := wrapInt LB (now - s.anim_start)
      let g := glRotatef sem ((tm : K) / 10) 1 0 0 g
      glRotatef sem ((tm : K) / 10) 0 1 0 g
    else g
  glPopMatrix g

/-- The scene part of `display`, lines 250-339. -/
def display_scene {K M : Type} [LinearOrderedField K] [Mul M] (sem : XfSem K M)
    (g : GLState K M) : GLState K M :=
  let g := glPopMatrix (drawCube (-8) 3 (-5) 3 4 7 (glPushMatrix g))
  let g := glPopMatrix (drawCube 8 3 (-5) 3 4 7 (glPushMatrix g))
  let g := glPopMatrix (drawCube 6 2.5 (-5) 3 4 5 (glPushMatrix g))
  let g := glPopMatrix (drawCube (-6) 2.5 (-5) 3 4 5 (glPushMatrix g))
  let g := glPopMatrix (drawCube 0 3 (-5) 9 4 7.5 (glPushMatrix g))
  let g := glPopMatrix (drawCube 0 0.5 (-2) 9 5 1 (glPushMatrix g))
  let g := glPushMatrix g
  let g := glTranslatef sem 0 5 (-5) g
  let g := glScalef sem 1 1 0.5 g
  let g := emit (Primitive.solidSphere 3 20 20) g
  let g := glPopMatrix g
  let g := glPopMatrix (glPushMatrix g)
  emit (Primitive.quads
    [⟨g.normal, ⟨-10, 0, -10⟩, ⟨-10, 0, 10⟩, ⟨10, 0, 10⟩, ⟨10, 0, -10⟩⟩]) g

/-- The callback `display()`. `now` is the answer of
`glutGet(GLUT_ELAPSED_TIME)`; the frame counter is a `long`. The calls that
touch neither a matrix stack nor the geometry (`glClear`, `glLightfv`,
`glColor3f`, `glutSwapBuffers`) are left out. -/
def display {K M : Type} [LinearOrderedField K] [Mul M] [One M] (sem : XfSem K M)
    (LB : Nat) (now : Int) (s : State K) (g : GLState K M) : State K × GLState K M :=
  let g := display_camera sem s g
  let g := display_spin sem LB now s g
  let g := display_scene sem g
  let g := print_help sem s g
  ({ s with nframes := wrapInt LB (s.nframes + 1) }, g)

/-- The callback `display()` run `n` times, the answers of the clock in `nows`
(a missing answer counts as 0). -/
def display_times {K M : Type} [LinearOrderedField K] [Mul M] [One M] (sem : XfSem K M)
    (LB : Nat) : Nat → (Nat → Int) → State K → GLState K M → State K × GLState K M
  | 0, _, s, g => (s, g)
  | n + 1, nows, s, g =>
    let r := display sem LB (nows 0) s g
    display_times sem LB n (fun i => nows (i + 1)) r.1 r.2

/-- The scenario of the animation toggle: the space key (32) is pressed with the
clock at `g1.elapsed_time`, `display` runs `n` times, the space key is pressed
again with the clock at `g2.elapsed_time`. The result is the final state. -/
def animation_run {K M : Type} [LinearOrderedField K] [Mul M] [One M] (sem : XfSem K M)
    (LB : Nat) (g1 g2 : Glut) (n : Nat) (nows : Nat → Int) (s : State K) (gl : GLState K M) :
    Except Halt (State K) :=
  match keypress LB g1 s 32 with
  | .error e => .error e
  | .ok s1 => keypress LB g2 (display_times sem LB n nows s1 gl).1 32

/-- The transform calls written out: the free reading of `XfSem`, in which a
transform is the list of the calls that built it. -/
inductive XfCall (K : Type) where
  | translate (x y z : K)
  | rotate (angle x y z : K)
  | scale (x y z : K)
  | ortho (l r b t n f : K)
deriving DecidableEq, Repr

/-- A transform as the sequence of calls applied since `glLoadIdentity`. -/
structure Calls (K : Type) where
  calls : List (XfCall K)
deriving DecidableEq, Repr

instance (K : Type) : Mul (Calls K) := ⟨fun a b => ⟨a.calls ++ b.calls⟩⟩

instance (K : Type) : One (Calls K) := ⟨⟨[]⟩⟩

/-- The free reading of the transform calls. -/
def callsSem (K : Type) : XfSem K (Calls K) where
  translate x y z := ⟨[XfCall.translate x y z]⟩
  rotate a x y z := ⟨[XfCall.rotate a x y z]⟩
  scale x y z := ⟨[XfCall.scale x y z]⟩
  ortho l r b t n f := ⟨[XfCall.ortho l r b t n f]⟩

/-- The OpenGL state before the first callback: identity matrices, empty
stacks, the default normal, nothing drawn. -/
def GLState.start (K M : Type) [LinearOrderedField K] [One M] : GLState K M where
  mode := .modelview
  modelview := 1
  modelview_saved := []
  projection := 1
  projection_saved := []
  normal := ⟨0, 0, 1⟩
  drawn := []

/-- The camera transform of the specification:
`translate(0,0,-distance) · rotateX(pitch) · rotateY(orbit) · translate(panOffset)`. -/
def cameraTransform {K M : Type} [LinearOrderedField K] [Mul M] [One M] (sem : XfSem K M)
    (s : State K) : M :=
  1 * sem.translate 0 0 (-s.cam_dist) * sem.rotate s.cam_phi 1 0 0
    * sem.rotate s.cam_theta 0 1 0 * sem.translate s.cam_pan.x s.cam_pan.y s.cam_pan.z

/-- The modelview matrices under which the quads of the scene (cuboids and
ground) are drawn, in drawing order. -/
def quadTransforms {K M : Type} (g : GLState K M) : List M :=
  g.drawn.filterMap fun d =>
    match d.1 with
    | .quads _ => some d.2
    | _ => none


/-! ## Theorems -/

/-- The bitwise or of two integers is zero exactly when both are zero. -/
theorem lor_eq_zero_iff (a b : Int) : Int.lor a b = 0 ↔ a = 0 ∧ b = 0 := by
  cases a with
  | ofNat m =>
    cases b with
    | ofNat n =>
      simp only [Int.lor, Int.ofNat_eq_coe]
      constructor
      · intro h
        have h' : m ||| n = 0 := by exact_mod_cast h
        have hm : m = 0 := by
          apply Nat.eq_of_testBit_eq
          intro i
          have := congrArg (fun t => Nat.testBit t i) h'
          simp only [Nat.testBit_or, Nat.zero_testBit, Bool.or_eq_false_iff] at this
          simp [this.1]
        have hn : n = 0 := by
          apply Nat.eq_of_testBit_eq
          intro i
          have := congrArg (fun t => Nat.testBit t i) h'
          simp only [Nat.testBit_or, Nat.zero_testBit, Bool.or_eq_false_iff] at this
          simp [this.2]
        simp [hm, hn]
      · rintro ⟨hm, hn⟩
        have hm' : m = 0 := by exact_mod_cast hm
        have hn' : n = 0 := by exact_mod_cast hn
        subst hm'; subst hn'; rfl
    | negSucc n => simp [Int.lor]
  | negSucc m =>
    cases b with
    | ofNat n => simp [Int.lor]
    | negSucc n => simp [Int.lor]

/-- The `int` difference of a value with itself is zero. -/
theorem wrapInt_zero : wrapInt INT_BITS 0 = 0 := by decide

/-- The orbit block keeps the camera invariant. -/
theorem motion_orbit_inv {K : Type} [LinearOrderedField K]
    (dx dy : Int) (s : State K) (h : CameraInv s) :
    CameraInv (motion_orbit dx dy s) := by
  obtain ⟨h1, h2, h3⟩ := h
  unfold motion_orbit
  by_cases hb : s.bnstate 0 ≠ 0
  · rw [if_pos hb]
    dsimp only [glutPostRedisplay, CameraInv]
    split_ifs with hlo hhi hhi
    · norm_num at hhi
    · exact ⟨le_refl _, by norm_num, h3⟩
    · exact ⟨by norm_num, le_refl _, h3⟩
    · exact ⟨not_lt.mp hlo, not_lt.mp hhi, h3⟩
  · rw [if_neg hb]
    exact ⟨h1, h2, h3⟩

/-- The pan block keeps the camera invariant. -/
theorem motion_pan_inv {K : Type} [LinearOrderedField K]
    (m : CMath K) (dx dy : Int) (s : State K) (h : CameraInv s) :
    CameraInv (motion_pan m dx dy s) := by
  unfold motion_pan
  by_cases hb : s.bnstate 1 ≠ 0
  · rw [if_pos hb]
    exact h
  · rw [if_neg hb]
    exact h

/-- The zoom block keeps the camera invariant. -/
theorem motion_zoom_inv {K : Type} [LinearOrderedField K]
    (dy : Int) (s : State K) (h : CameraInv s) :
    CameraInv (motion_zoom dy s) := by
  obtain ⟨h1, h2, h3⟩ := h
  unfold motion_zoom
  by_cases hb : s.bnstate 2 ≠ 0
  · rw [if_pos hb]
    dsimp only [glutPostRedisplay, CameraInv]
    split_ifs with hlo
    · exact ⟨h1, h2, le_refl _⟩
    · exact ⟨h1, h2, not_lt.mp hlo⟩
  · rw [if_neg hb]
    exact ⟨h1, h2, h3⟩

/-- The callback `motion` keeps the camera invariant. -/
theorem motion_inv {K : Type} [LinearOrderedField K]
    (m : CMath K) (s : State K) (x y : Int) (h : CameraInv s) :
    CameraInv (motion m s x y) := by
  unfold motion
  have h0 : CameraInv { s with mouse_x := x, mouse_y := y } := h
  by_cases hg : Int.lor (motion_dx s x) (motion_dy s y) = 0
  · rw [if_pos hg]
    exact h0
  · rw [if_neg hg]
    exact motion_zoom_inv _ _ (motion_pan_inv m _ _ _ (motion_orbit_inv _ _ _ h0))

/-- Every pointer event keeps the camera invariant. -/
theorem deliver_inv {K : Type} [LinearOrderedField K]
    (m : CMath K) (s : State K) (e : PointerEvent) (h : CameraInv s) :
    CameraInv (e.deliver m s) := by
  cases e with
  | button bn st x y => exact h
  | drag x y => exact motion_inv m s x y h

/-- The camera invariant holds at program start. -/
theorem initial_inv {K : Type} [LinearOrderedField K] : CameraInv (initial K) := by
  unfold CameraInv initial
  norm_num

/-- A sequence of pointer events keeps the camera invariant. -/
theorem deliverAll_inv {K : Type} [LinearOrderedField K] (m : CMath K) (es : List PointerEvent) :
    ∀ s : State K, CameraInv s → CameraInv (deliverAll m s es) := by
  induction es with
  | nil => intro s h; exact h
  | cons e rest ih =>
    intro s h
    exact ih _ (deliver_inv m s e h)

/-- C1. From the initial state (`cam_theta = 0`, `cam_phi = 25`, `cam_dist = 8`,
`cam_pan = (0,0,0)`), after every finite sequence of `mouse` and `motion`
events, whatever the buttons and pointer coordinates, the pitch `cam_phi` is
in `[-90, 90]` and the distance `cam_dist` is not negative. -/
theorem C1_camera_invariant {K : Type} [LinearOrderedField K]
    (m : CMath K) (es : List PointerEvent) :
    -90 ≤ (deliverAll m (initial K) es).cam_phi ∧
    (deliverAll m (initial K) es).cam_phi ≤ 90 ∧
    0 ≤ (deliverAll m (initial K) es).cam_dist :=
  deliverAll_inv m es (initial K) initial_inv

/-- The orbit block when the left button is held. -/
theorem motion_orbit_held {K : Type} [LinearOrderedField K]
    (dx dy : Int) (s : State K) (h0 : s.bnstate 0 ≠ 0) :
    motion_orbit dx dy s =
      { s with cam_theta := s.cam_theta + (dx : K) * 0.5
               cam_phi := min 90 (max (-90) (s.cam_phi + (dy : K) * 0.5))
               redisplay_posts := s.redisplay_posts + 1 } := by
  unfold motion_orbit
  rw [if_pos h0]
  dsimp only [glutPostRedisplay]
  split_ifs with hlo hhi hhi
  · norm_num at hhi
  · rw [max_eq_left hlo.le, min_eq_right (by norm_num)]
  · rw [max_eq_right (by linarith), min_eq_left hhi.le]
  · rw [max_eq_right (not_lt.mp hlo), min_eq_right (not_lt.mp hhi)]

/-- The zoom block when the right button is held. -/
theorem motion_zoom_held {K : Type} [LinearOrderedField K]
    (dy : Int) (s : State K) (h2 : s.bnstate 2 ≠ 0) :
    motion_zoom dy s =
      { s with cam_dist := max 0 (s.cam_dist + (dy : K) * 0.1)
               redisplay_posts := s.redisplay_posts + 1 } := by
  unfold motion_zoom
  rw [if_pos h2]
  dsimp only [glutPostRedisplay]
  split_ifs with hlo
  · rw [max_eq_left hlo.le]
  · rw [max_eq_right (not_lt.mp hlo)]

/-- The orbit block when the left button is not held. -/
theorem motion_orbit_released {K : Type} [LinearOrderedField K]
    (dx dy : Int) (s : State K) (h0 : s.bnstate 0 = 0) :
    motion_orbit dx dy s = s := by
  unfold motion_orbit
  rw [if_neg (not_not.mpr h0)]

/-- The pan block when the middle button is not held. -/
theorem motion_pan_released {K : Type} [LinearOrderedField K]
    (m : CMath K) (dx dy : Int) (s : State K)
    (h1 : s.bnstate 1 = 0) : motion_pan m dx dy s = s := by
  unfold motion_pan
  rw [if_neg (not_not.mpr h1)]

/-- The zoom block when the right button is not held. -/
theorem motion_zoom_released {K : Type} [LinearOrderedField K]
    (dy : Int) (s : State K) (h2 : s.bnstate 2 = 0) :
    motion_zoom dy s = s := by
  unfold motion_zoom
  rw [if_neg (not_not.mpr h2)]

/-- The guard of `motion` does not fire on a non-zero delta. -/
theorem guard_of_nonzero (dx dy : Int) (hd : dx ≠ 0 ∨ dy ≠ 0) : ¬ Int.lor dx dy = 0 := by
  rw [lor_eq_zero_iff]
  rcases hd with h | h
  · exact fun c => h c.1
  · exact fun c => h c.2

/-- C2. A `motion` event with a non-zero delta while only the left (orbit)
button is held adds `dx * 0.5` to `cam_theta`, replaces `cam_phi` by
`min(90, max(-90, cam_phi + dy * 0.5))`, leaves `cam_dist` and `cam_pan` as
they are and posts one redisplay. From the initial state with the left button
pressed at (0,0), the drag to (10, 200) gives `cam_theta = 5`, `cam_phi = 90`. -/
theorem C2_orbit_update {K : Type} [LinearOrderedField K] (m : CMath K) (s : State K) (x y : Int)
    (h0 : s.bnstate 0 ≠ 0) (h1 : s.bnstate 1 = 0) (h2 : s.bnstate 2 = 0)
    (hd : motion_dx s x ≠ 0 ∨ motion_dy s y ≠ 0) :
    (motion m s x y).cam_theta = s.cam_theta + (motion_dx s x : K) * 0.5 ∧
    (motion m s x y).cam_phi = min 90 (max (-90) (s.cam_phi + (motion_dy s y : K) * 0.5)) ∧
    (motion m s x y).cam_dist = s.cam_dist ∧
    (motion m s x y).cam_pan = s.cam_pan ∧
    (motion m s x y).redisplay_posts = s.redisplay_posts + 1 ∧
    (motion m (mouse (initial K) 0 GLUT_DOWN 0 0) 10 200).cam_theta = 5 ∧
    (motion m (mouse (initial K) 0 GLUT_DOWN 0 0) 10 200).cam_phi = 90 := by
  have hg : ¬ Int.lor (motion_dx s x) (motion_dy s y) = 0 := guard_of_nonzero _ _ hd
  have step : motion m s x y =
      { s with mouse_x := x, mouse_y := y
               cam_theta := s.cam_theta + (motion_dx s x : K) * 0.5
               cam_phi := min 90 (max (-90) (s.cam_phi + (motion_dy s y : K) * 0.5))
               redisplay_posts := s.redisplay_posts + 1 } := by
    unfold motion
    rw [if_neg hg, motion_orbit_held, motion_pan_released, motion_zoom_released]
    all_goals first | exact h0 | exact h1 | exact h2
  have scen : motion m (mouse (initial K) 0 GLUT_DOWN 0 0) 10 200 =
      { mouse (initial K) 0 GLUT_DOWN 0 0 with
          mouse_x := 10, mouse_y := 200, cam_theta := 5, cam_phi := 90
          redisplay_posts := 1 } := by
    have e1 : motion_dx (mouse (initial K) 0 GLUT_DOWN 0 0) 10 = 10 := by
      show wrapInt INT_BITS (10 - 0) = 10
      decide
    have e2 : motion_dy (mouse (initial K) 0 GLUT_DOWN 0 0) 200 = 200 := by
      show wrapInt INT_BITS (200 - 0) = 200
      decide
    unfold motion
    rw [e1, e2, if_neg (by decide), motion_orbit_held, motion_pan_released,
      motion_zoom_released]
    · simp only [mouse, initial]
      norm_num
    all_goals simp [mouse, initial, GLUT_DOWN]
  rw [step, scen]
  exact ⟨rfl, rfl, rfl, rfl, rfl, rfl, rfl⟩

/-- Witness of C2 on the scenario of the specification: orbit drag
`(dx, dy) = (10, 200)` from the initial camera gives orbit 5 and pitch 90. -/
theorem C2_orbit_update_witness :
    ((mouse (initial ℚ) 0 GLUT_DOWN 0 0).bnstate 0 ≠ 0 ∧
     (mouse (initial ℚ) 0 GLUT_DOWN 0 0).bnstate 1 = 0 ∧
     (mouse (initial ℚ) 0 GLUT_DOWN 0 0).bnstate 2 = 0 ∧
     motion_dx (mouse (initial ℚ) 0 GLUT_DOWN 0 0) 10 ≠ 0) ∧
    (motion ⟨fun _ => 0, fun _ => 1, 3⟩ (mouse (initial ℚ) 0 GLUT_DOWN 0 0) 10 200).cam_theta
      = 5 ∧
    (motion ⟨fun _ => 0, fun _ => 1, 3⟩ (mouse (initial ℚ) 0 GLUT_DOWN 0 0) 10 200).cam_phi
      = 90 :=
  ⟨⟨by decide, by decide, by decide, by decide⟩,
   (C2_orbit_update ⟨fun _ => 0, fun _ => 1, 3⟩ (mouse (initial ℚ) 0 GLUT_DOWN 0 0) 10 200
      (by decide) (by decide) (by decide) (Or.inl (by decide))).2.2.2.2.2⟩

/-- C3. A `motion` event with a non-zero delta while only the right (zoom)
button is held replaces `cam_dist` by `max(0, cam_dist + dy * 0.1)` and leaves
`cam_theta`, `cam_phi` and `cam_pan` as they are. From the initial state with
the right button pressed at (0,0), the drag to (0, -100) gives `cam_dist = 0`. -/
theorem C3_zoom_update {K : Type} [LinearOrderedField K] (m : CMath K) (s : State K) (x y : Int)
    (h0 : s.bnstate 0 = 0) (h1 : s.bnstate 1 = 0) (h2 : s.bnstate 2 ≠ 0)
    (hd : motion_dx s x ≠ 0 ∨ motion_dy s y ≠ 0) :
    (motion m s x y).cam_dist = max 0 (s.cam_dist + (motion_dy s y : K) * 0.1) ∧
    (motion m s x y).cam_theta = s.cam_theta ∧
    (motion m s x y).cam_phi = s.cam_phi ∧
    (motion m s x y).cam_pan = s.cam_pan ∧
    (motion m s x y).redisplay_posts = s.redisplay_posts + 1 ∧
    (motion m (mouse (initial K) 2 GLUT_DOWN 0 0) 0 (-100)).cam_dist = 0 := by
  have hg : ¬ Int.lor (motion_dx s x) (motion_dy s y) = 0 := guard_of_nonzero _ _ hd
  have step : motion m s x y =
      { s with mouse_x := x, mouse_y := y
               cam_dist := max 0 (s.cam_dist + (motion_dy s y : K) * 0.1)
               redisplay_posts := s.redisplay_posts + 1 } := by
    unfold motion
    rw [if_neg hg, motion_orbit_released, motion_pan_released, motion_zoom_held]
    all_goals first | exact h0 | exact h1 | exact h2
  have scen : motion m (mouse (initial K) 2 GLUT_DOWN 0 0) 0 (-100) =
      { mouse (initial K) 2 GLUT_DOWN 0 0 with
          mouse_x := 0, mouse_y := -100, cam_dist := 0, redisplay_posts := 1 } := by
    have e1 : motion_dx (mouse (initial K) 2 GLUT_DOWN 0 0) 0 = 0 := by
      show wrapInt INT_BITS (0 - 0) = 0
      decide
    have e2 : motion_dy (mouse (initial K) 2 GLUT_DOWN 0 0) (-100) = -100 := by
      show wrapInt INT_BITS (-100 - 0) = -100
      decide
    unfold motion
    rw [e1, e2, if_neg (by decide), motion_orbit_released, motion_pan_released,
      motion_zoom_held]
    · simp only [mouse, initial]
      norm_num
    all_goals simp [mouse, initial, GLUT_DOWN]
  rw [step, scen]
  exact ⟨rfl, rfl, rfl, rfl, rfl, rfl⟩

/-- Witness of C3 on the scenario of the specification: zoom drag `dy = -100`
from distance 8 gives distance 0. -/
theorem C3_zoom_update_witness :
    ((mouse (initial ℚ) 2 GLUT_DOWN 0 0).bnstate 0 = 0 ∧
     (mouse (initial ℚ) 2 GLUT_DOWN 0 0).bnstate 1 = 0 ∧
     (mouse (initial ℚ) 2 GLUT_DOWN 0 0).bnstate 2 ≠ 0 ∧
     motion_dy (mouse (initial ℚ) 2 GLUT_DOWN 0 0) (-100) ≠ 0) ∧
    (motion ⟨fun _ => 0, fun _ => 1, 3⟩ (mouse (initial ℚ) 2 GLUT_DOWN 0 0) 0 (-100)).cam_dist
      = 0 :=
  ⟨⟨by decide, by decide, by decide, by decide⟩,
   (C3_zoom_update ⟨fun _ => 0, fun _ => 1, 3⟩ (mouse (initial ℚ) 2 GLUT_DOWN 0 0) 0 (-100)
      (by decide) (by decide) (by decide) (Or.inr (by decide))).2.2.2.2.2⟩

/-- The pan block when the middle button is held. -/
theorem motion_pan_held {K : Type} [LinearOrderedField K]
    (m : CMath K) (dx dy : Int) (s : State K) (h1 : s.bnstate 1 ≠ 0) :
    motion_pan m dx dy s =
      { s with
          cam_pan :=
            ⟨s.cam_pan.x + 0.01 * (m.cos (s.cam_theta * m.M_PI / 180) * (dx : K)
                - m.sin (s.cam_theta * m.M_PI / 180) * m.sin (s.cam_phi * m.M_PI / 180)
                  * (dy : K)),
             s.cam_pan.y + 0.01 * (-m.cos (s.cam_phi * m.M_PI / 180) * (dy : K)),
             s.cam_pan.z + 0.01 * (m.sin (s.cam_theta * m.M_PI / 180) * (dx : K)
                + m.cos (s.cam_theta * m.M_PI / 180) * m.sin (s.cam_phi * m.M_PI / 180)
                  * (dy : K))⟩
          redisplay_posts := s.redisplay_posts + 1 } := by
  unfold motion_pan
  rw [if_pos h1]
  dsimp only [glutPostRedisplay]
  congr 2
  · ring
  · ring
  · ring

/-- C4. A `motion` event with a non-zero delta while only the middle (pan)
button is held, with `theta = cam_theta * M_PI / 180` and
`phi = cam_phi * M_PI / 180`, adds
`0.01 * (cos theta * dx - sin theta * sin phi * dy, -cos phi * dy,
sin theta * dx + cos theta * sin phi * dy)` to `cam_pan` and leaves `cam_theta`,
`cam_phi` and `cam_dist` as they are. Where `theta = 0` and `phi = 0` (with
`sin 0 = 0`, `cos 0 = 1`) the pan offset changes by `(0.01 * dx, -0.01 * dy, 0)`. -/
theorem C4_pan_update {K : Type} [LinearOrderedField K] (m : CMath K) (s : State K) (x y : Int)
    (h0 : s.bnstate 0 = 0) (h1 : s.bnstate 1 ≠ 0) (h2 : s.bnstate 2 = 0)
    (hd : motion_dx s x ≠ 0 ∨ motion_dy s y ≠ 0) :
    (motion m s x y).cam_pan =
      ⟨s.cam_pan.x + 0.01 * (m.cos (s.cam_theta * m.M_PI / 180) * (motion_dx s x : K)
          - m.sin (s.cam_theta * m.M_PI / 180) * m.sin (s.cam_phi * m.M_PI / 180)
            * (motion_dy s y : K)),
       s.cam_pan.y + 0.01 * (-m.cos (s.cam_phi * m.M_PI / 180) * (motion_dy s y : K)),
       s.cam_pan.z + 0.01 * (m.sin (s.cam_theta * m.M_PI / 180) * (motion_dx s x : K)
          + m.cos (s.cam_theta * m.M_PI / 180) * m.sin (s.cam_phi * m.M_PI / 180)
            * (motion_dy s y : K))⟩ ∧
    (motion m s x y).cam_theta = s.cam_theta ∧
    (motion m s x y).cam_phi = s.cam_phi ∧
    (motion m s x y).cam_dist = s.cam_dist ∧
    (motion m s x y).redisplay_posts = s.redisplay_posts + 1 ∧
    (m.sin 0 = 0 → m.cos 0 = 1 →
      s.cam_theta * m.M_PI / 180 = 0 → s.cam_phi * m.M_PI / 180 = 0 →
      (motion m s x y).cam_pan =
        ⟨s.cam_pan.x + 0.01 * (motion_dx s x : K),
         s.cam_pan.y + -0.01 * (motion_dy s y : K),
         s.cam_pan.z + 0⟩) := by
  have hg : ¬ Int.lor (motion_dx s x) (motion_dy s y) = 0 := guard_of_nonzero _ _ hd
  have step : motion m s x y =
      { s with
          mouse_x := x, mouse_y := y
          cam_pan :=
            ⟨s.cam_pan.x + 0.01 * (m.cos (s.cam_theta * m.M_PI / 180) * (motion_dx s x : K)
                - m.sin (s.cam_theta * m.M_PI / 180) * m.sin (s.cam_phi * m.M_PI / 180)
                  * (motion_dy s y : K)),
             s.cam_pan.y + 0.01 * (-m.cos (s.cam_phi * m.M_PI / 180) * (motion_dy s y : K)),
             s.cam_pan.z + 0.01 * (m.sin (s.cam_theta * m.M_PI / 180) * (motion_dx s x : K)
                + m.cos (s.cam_theta * m.M_PI / 180) * m.sin (s.cam_phi * m.M_PI / 180)
                  * (motion_dy s y : K))⟩
          redisplay_posts := s.redisplay_posts + 1 } := by
    unfold motion
    rw [if_neg hg, motion_orbit_released, motion_pan_held, motion_zoom_released]
    all_goals first | exact h0 | exact h1 | exact h2
  rw [step]
  refine ⟨rfl, rfl, rfl, rfl, rfl, ?_⟩
  intro hs hc ht hp
  dsimp only
  rw [ht, hp, hs, hc]
  congr 1 <;> ring

/-- Witness of C4 in real arithmetic, with the sine, the cosine and the number
pi of the reals: at `cam_theta = 0`, `cam_phi = 0`, pan drag `(dx, dy) = (3, 4)`. -/
theorem C4_pan_update_witness :
    ((mouse { initial ℝ with cam_phi := 0 } 1 GLUT_DOWN 0 0).bnstate 0 = 0 ∧
     (mouse { initial ℝ with cam_phi := 0 } 1 GLUT_DOWN 0 0).bnstate 1 ≠ 0 ∧
     (mouse { initial ℝ with cam_phi := 0 } 1 GLUT_DOWN 0 0).bnstate 2 = 0 ∧
     motion_dx (mouse { initial ℝ with cam_phi := 0 } 1 GLUT_DOWN 0 0) 3 ≠ 0) ∧
    (motion ⟨Real.sin, Real.cos, Real.pi⟩
        (mouse { initial ℝ with cam_phi := 0 } 1 GLUT_DOWN 0 0) 3 4).cam_pan =
      ⟨0 + 0.01 * ((3 : Int) : ℝ), 0 + -0.01 * ((4 : Int) : ℝ), 0 + 0⟩ :=
  ⟨⟨by decide, by decide, by decide, by decide⟩,
   (C4_pan_update ⟨Real.sin, Real.cos, Real.pi⟩
      (mouse { initial ℝ with cam_phi := 0 } 1 GLUT_DOWN 0 0) 3 4
      (by decide) (by decide) (by decide) (Or.inl (by decide))).2.2.2.2.2
      Real.sin_zero Real.cos_zero (by simp [mouse, initial]) (by simp [mouse, initial])⟩

/-- C5. A `motion` event at the recorded pointer position (`dx = 0`, `dy = 0`)
returns the state it was given: camera, pointer position, buttons, `anim`,
`help` and the count of posted redisplays are all unchanged. The guard
`!(dx | dy)` holds exactly when both deltas are zero. -/
theorem C5_zero_delta_noop {K : Type} [LinearOrderedField K] (m : CMath K) (s : State K) :
    motion m s s.mouse_x s.mouse_y = s ∧
    (∀ x y : Int, Int.lor (motion_dx s x) (motion_dy s y) = 0 ↔
      (motion_dx s x = 0 ∧ motion_dy s y = 0)) ∧
    (∀ x y : Int, motion_dx s x = 0 → motion_dy s y = 0 →
      motion m s x y = { s with mouse_x := x, mouse_y := y }) := by
  refine ⟨?_, fun x y => lor_eq_zero_iff _ _, ?_⟩
  · unfold motion motion_dx motion_dy
    rw [sub_self, sub_self, wrapInt_zero, if_pos (by decide)]
  · intro x y hx hy
    unfold motion
    rw [hx, hy, if_pos (by decide)]

/-- A value in the range of a `w` bit integer is its own representative. -/
theorem wrapInt_eq_self (w : Nat) (hw : 1 ≤ w) (z : Int)
    (hlo : -(2 ^ (w - 1)) ≤ z) (hhi : z < 2 ^ (w - 1)) : wrapInt w z = z := by
  unfold wrapInt
  have hp : (2 : Int) ^ w = 2 * 2 ^ (w - 1) := by
    rw [← pow_succ']
    congr 1
    omega
  rw [Int.emod_eq_of_lt (by linarith) (by linarith)]
  ring

/-- The only global that `display` writes is the frame counter. -/
theorem display_fst {K M : Type} [LinearOrderedField K] [Mul M] [One M]
    (sem : XfSem K M) (LB : Nat) (now : Int) (s : State K)
    (g : GLState K M) :
    (display sem LB now s g).1 = { s with nframes := wrapInt LB (s.nframes + 1) } :=
  rfl

/-- After `n` runs of `display` the frame counter has grown by `n`, as long as
it stays in the range of a `long`. -/
theorem display_times_fst {K M : Type} [LinearOrderedField K] [Mul M] [One M]
    (sem : XfSem K M) (LB : Nat) (hLB : 1 ≤ LB) (n : Nat) :
    ∀ (nows : Nat → Int) (s : State K) (g : GLState K M),
      0 ≤ s.nframes → s.nframes + n < 2 ^ (LB - 1) →
      (display_times sem LB n nows s g).1 = { s with nframes := s.nframes + n } := by
  induction n with
  | zero =>
    intro nows s g _ _
    simp [display_times]
  | succ k ih =>
    intro nows s g h0 hlt
    have hpos : (0 : Int) < 2 ^ (LB - 1) := by positivity
    have hk : (0 : Int) ≤ (k : Int) := Int.ofNat_nonneg k
    have hw : wrapInt LB (s.nframes + 1) = s.nframes + 1 := by
      apply wrapInt_eq_self LB hLB
      · linarith
      · push_cast at hlt
        linarith
    unfold display_times
    dsimp only
    rw [ih _ _ _ (by rw [display_fst]; dsimp only; rw [hw]; linarith)
      (by rw [display_fst]; dsimp only; rw [hw]; push_cast at hlt; linarith)]
    rw [display_fst]
    dsimp only
    rw [hw]
    push_cast
    congr 1
    ring

/-- The first press of the space key, from a state with `anim = 0`. -/
theorem keypress_space_on {K : Type} (LB : Nat) (g : Glut) (s : State K) (ha : s.anim = 0) :
    keypress LB g s 32 =
      .ok { s with anim := 1, idle_registered := true
                   redisplay_posts := s.redisplay_posts + 1
                   anim_start := g.elapsed_time, nframes := 0 } := by
  unfold keypress keypress_space
  rw [if_neg (by decide), if_pos rfl]
  dsimp only [glutPostRedisplay]
  rw [ha]
  rfl

/-- The second press of the space key, from a state with `anim = 1`, when the
elapsed time is not zero. -/
theorem keypress_space_off {K : Type} (LB : Nat) (g : Glut) (s : State K) (ha : s.anim = 1)
    (htm : keypress_tm LB g s ≠ 0) :
    keypress LB g s 32 =
      .ok { s with anim := 0, idle_registered := false
                   redisplay_posts := s.redisplay_posts + 1
                   stdout := s.stdout ++ framerate_text (keypress_fps LB g s) } := by
  unfold keypress keypress_space
  rw [if_neg (by decide), if_pos rfl]
  dsimp only [glutPostRedisplay]
  rw [ha]
  have hx : Int.xor 1 1 = 0 := by decide
  rw [hx, if_neg (by decide)]
  have e : keypress_tm LB g
      { s with anim := 0, idle_registered := decide ((0 : Int) ≠ 0)
               redisplay_posts := s.redisplay_posts + 1 } = keypress_tm LB g s := rfl
  rw [e, if_neg htm]
  rfl

/-- The second press of the space key, from a state with `anim = 1`, when the
elapsed time is zero: the division by zero is reached. -/
theorem keypress_space_off_zero {K : Type} (LB : Nat) (g : Glut) (s : State K) (ha : s.anim = 1)
    (htm : keypress_tm LB g s = 0) :
    keypress LB g s 32 = .error Halt.divideByZero := by
  unfold keypress keypress_space
  rw [if_neg (by decide), if_pos rfl]
  dsimp only [glutPostRedisplay]
  rw [ha]
  have hx : Int.xor 1 1 = 0 := by decide
  rw [hx, if_neg (by decide)]
  have e : keypress_tm LB g
      { s with anim := 0, idle_registered := decide ((0 : Int) ≠ 0)
               redisplay_posts := s.redisplay_posts + 1 } = keypress_tm LB g s := rfl
  rw [e, if_pos htm]

/-- The animation scenario, as long as the frame counter stays in the range of
a `long`: the outcome is decided by the elapsed time `tm`. -/
theorem animation_run_eq {K M : Type} [LinearOrderedField K] [Mul M] [One M]
    (sem : XfSem K M) (LB : Nat) (hLB : 1 ≤ LB) (g1 g2 : Glut)
    (n : Nat) (nows : Nat → Int) (s : State K) (gl : GLState K M)
    (ha : s.anim = 0) (hn : (n : Int) < 2 ^ (LB - 1)) :
    animation_run sem LB g1 g2 n nows s gl =
      keypress LB g2
        { s with anim := 1, idle_registered := true
                 redisplay_posts := s.redisplay_posts + 1
                 anim_start := g1.elapsed_time, nframes := n } 32 := by
  unfold animation_run
  rw [keypress_space_on LB g1 s ha]
  dsimp only
  rw [display_times_fst sem LB hLB n nows _ gl (le_refl _) (by simpa using hn)]
  simp

/-- C6. Evaluation of the code where the claim fails: the space key pressed
twice at the same clock value (elapsed time `tm = 0`), with no frame or with
five frames drawn in between, for a 64 bit and a 32 bit `long`. The second
`keypress` reaches the division by zero; nothing is reported. -/
theorem C6_zero_elapsed_divides_by_zero :
    animation_run (callsSem ℚ) 64 ⟨1000, 0, 800, 600⟩ ⟨1000, 0, 800, 600⟩ 0 (fun _ => 1000)
        (initial ℚ) (GLState.start ℚ (Calls ℚ)) = .error Halt.divideByZero ∧
    animation_run (callsSem ℚ) 64 ⟨1000, 0, 800, 600⟩ ⟨1000, 0, 800, 600⟩ 5 (fun _ => 1000)
        (initial ℚ) (GLState.start ℚ (Calls ℚ)) = .error Halt.divideByZero ∧
    animation_run (callsSem ℚ) 32 ⟨1000, 0, 800, 600⟩ ⟨1000, 0, 800, 600⟩ 0 (fun _ => 1000)
        (initial ℚ) (GLState.start ℚ (Calls ℚ)) = .error Halt.divideByZero := by
  refine ⟨?_, ?_, ?_⟩
  · rw [animation_run_eq _ _ (by decide) _ _ _ _ _ _ rfl (by decide)]
    exact keypress_space_off_zero _ _ _ rfl (by decide)
  · rw [animation_run_eq _ _ (by decide) _ _ _ _ _ _ rfl (by decide)]
    exact keypress_space_off_zero _ _ _ rfl (by decide)
  · rw [animation_run_eq _ _ (by decide) _ _ _ _ _ _ rfl (by decide)]
    exact keypress_space_off_zero _ _ _ rfl (by decide)

/-- The text printed by the animation scenario when it returns. -/
theorem animation_run_stdout {K M : Type} [LinearOrderedField K] [Mul M] [One M]
    (sem : XfSem K M) (LB : Nat) (hLB : 1 ≤ LB) (g1 g2 : Glut)
    (n : Nat) (nows : Nat → Int) (s : State K) (gl : GLState K M)
    (ha : s.anim = 0) (hn : (n : Int) < 2 ^ (LB - 1))
    (htm : wrapInt LB (g2.elapsed_time - g1.elapsed_time) ≠ 0) :
    Except.map State.stdout (animation_run sem LB g1 g2 n nows s gl) =
      .ok (s.stdout ++ framerate_text
        (wrapInt LB ((wrapInt LB ((n : Int) * 100000)).tdiv
          (wrapInt LB (g2.elapsed_time - g1.elapsed_time))))) := by
  rw [animation_run_eq sem LB hLB g1 g2 n nows s gl ha hn, keypress_space_off]
  · rfl
  · rfl
  · exact htm

/-- C7, as the claim states it, fails where `N * 100000` leaves the range of a
`long`. With a 64 bit `long`: `N = 92233720368548`, `T = 1`; with a 32 bit
`long`: `N = 30000`, `T = 500000`. The rate that is printed is not
`N * 100000 / T`. -/
theorem C7_rate_overflow :
    (Except.map State.stdout
        (animation_run (callsSem ℚ) 64 ⟨0, 0, 800, 600⟩ ⟨1, 0, 800, 600⟩ 92233720368548
          (fun _ => 0) (initial ℚ) (GLState.start ℚ (Calls ℚ)))
        = .ok "framerate: -92233720368547516.-16 fps\n" ∧
      "framerate: -92233720368547516.-16 fps\n"
        ≠ framerate_text (((92233720368548 : Nat) * 100000 : Int).tdiv 1)) ∧
    (Except.map State.stdout
        (animation_run (callsSem ℚ) 32 ⟨0, 0, 800, 600⟩ ⟨500000, 0, 800, 600⟩ 30000
          (fun _ => 0) (initial ℚ) (GLState.start ℚ (Calls ℚ)))
        = .ok "framerate: -25.-89 fps\n" ∧
      "framerate: -25.-89 fps\n"
        ≠ framerate_text (((30000 : Nat) * 100000 : Int).tdiv 500000)) := by
  refine ⟨⟨?_, by decide⟩, ⟨?_, by decide⟩⟩
  · rw [animation_run_stdout _ _ (by decide) _ _ _ _ _ _ rfl (by decide) (by decide)]
    exact congrArg Except.ok (by decide)
  · rw [animation_run_stdout _ _ (by decide) _ _ _ _ _ _ rfl (by decide) (by decide)]
    exact congrArg Except.ok (by decide)

/-- C8. Evaluation of the code where the claim fails: 60 frames in 2000 ms give
`fps = 3000`, and the text printed is `30.0`, not `30.00`; the rate 3005
(30.05 frames per second) is printed as `30.5`. -/
theorem C8_fraction_not_padded :
    Except.map State.stdout
        (animation_run (callsSem ℚ) 64 ⟨0, 0, 800, 600⟩ ⟨2000, 0, 800, 600⟩ 60
          (fun _ => 0) (initial ℚ) (GLState.start ℚ (Calls ℚ)))
        = .ok "framerate: 30.0 fps\n" ∧
    framerate_text 3000 = "framerate: 30.0 fps\n" ∧
    framerate_text 3005 = "framerate: 30.5 fps\n" := by
  refine ⟨?_, by decide, by decide⟩
  rw [animation_run_stdout _ _ (by decide) _ _ _ _ _ _ rfl (by decide) (by decide)]
  exact congrArg Except.ok (by decide)

/-- C7, amended. From a state with `anim = 0`, the space key pressed with the
clock at `t0` sets `anim = 1`, `anim_start = t0`, `nframes = 0`. If `display`
then runs `N` times and the space key is pressed with the clock at `t0 + T`,
where `T > 0` fits a `long` and `N * 100000` does not exceed the largest
`long`, then `anim` is 0 again and the rate computed and printed is
`(N * 100000) / T`, whatever `nframes` and `anim_start` were before. -/
theorem C7_animation_rate {K M : Type} [LinearOrderedField K] [Mul M] [One M]
    (sem : XfSem K M) (LB : Nat) (g1 g2 : Glut) (N : Nat) (T : Int) (nows : Nat → Int)
    (s : State K) (gl : GLState K M)
    (hLB : 1 ≤ LB) (ha : s.anim = 0) (hT : 0 < T) (hTfit : T < 2 ^ (LB - 1))
    (hg2 : g2.elapsed_time = g1.elapsed_time + T)
    (hfit : (N : Int) * 100000 < 2 ^ (LB - 1)) :
    Except.map (fun s1 => (s1.anim, s1.anim_start, s1.nframes)) (keypress LB g1 s 32)
      = .ok (1, g1.elapsed_time, 0) ∧
    (∀ s1, keypress LB g1 s 32 = .ok s1 →
      (display_times sem LB N nows s1 gl).1.nframes = N ∧
      keypress_fps LB g2 (display_times sem LB N nows s1 gl).1
        = ((N : Int) * 100000).tdiv T) ∧
    Except.map (fun s3 => (s3.anim, s3.stdout)) (animation_run sem LB g1 g2 N nows s gl)
      = .ok (0, s.stdout ++ framerate_text (((N : Int) * 100000).tdiv T)) := by
  have hN0 : (0 : Int) ≤ (N : Int) := Int.ofNat_nonneg N
  have hpos : (0 : Int) < 2 ^ (LB - 1) := by positivity
  have hN : (N : Int) < 2 ^ (LB - 1) := by linarith
  have hwT : wrapInt LB (g2.elapsed_time - g1.elapsed_time) = T := by
    rw [hg2, add_sub_cancel_left]
    exact wrapInt_eq_self LB hLB T (by linarith) hTfit
  have hwN : wrapInt LB ((N : Int) * 100000) = (N : Int) * 100000 :=
    wrapInt_eq_self LB hLB _ (by linarith) hfit
  have hdiv : ((N : Int) * 100000).tdiv T = (N : Int) * 100000 / T :=
    Int.tdiv_eq_ediv (by linarith) hT.le
  have hq0 : 0 ≤ (N : Int) * 100000 / T := Int.ediv_nonneg (by linarith) hT.le
  have hq1 : (N : Int) * 100000 / T ≤ (N : Int) * 100000 := Int.ediv_le_self _ (by linarith)
  have hwq : wrapInt LB (((N : Int) * 100000).tdiv T) = ((N : Int) * 100000).tdiv T := by
    rw [hdiv]
    exact wrapInt_eq_self LB hLB _ (by linarith) (by linarith)
  have hfps : ∀ s2 : State K, s2.anim_start = g1.elapsed_time → s2.nframes = N →
      keypress_fps LB g2 s2 = ((N : Int) * 100000).tdiv T := by
    intro s2 h1 h2
    unfold keypress_fps keypress_tm
    rw [h1, h2, hwT, hwN, hwq]
  refine ⟨?_, ?_, ?_⟩
  · rw [keypress_space_on LB g1 s ha]
    rfl
  · intro s1 h1
    rw [keypress_space_on LB g1 s ha] at h1
    injection h1 with h1
    subst h1
    rw [display_times_fst sem LB hLB N nows _ gl (le_refl _) (by simpa using hN)]
    exact ⟨by simp, hfps _ rfl (by simp)⟩
  · rw [animation_run_eq sem LB hLB g1 g2 N nows s gl ha hN, keypress_space_off]
    · show Except.ok (_, _) = Except.ok (_, _)
      rw [hfps _ rfl rfl]
    · rfl
    · show wrapInt LB (g2.elapsed_time - g1.elapsed_time) ≠ 0
      rw [hwT]
      exact hT.ne'

/-- Witness of C7 on the scenario of the specification: 60 frames in 2000 ms,
with a 64 bit `long`, give the rate 3000. -/
theorem C7_animation_rate_witness :
    ((initial ℚ).anim = 0 ∧ (0 : Int) < 2000 ∧ (2000 : Int) < 2 ^ (64 - 1) ∧
      ((60 : Nat) : Int) * 100000 < 2 ^ (64 - 1)) ∧
    Except.map (fun s3 => (s3.anim, s3.stdout))
        (animation_run (callsSem ℚ) 64 ⟨0, 0, 800, 600⟩ ⟨2000, 0, 800, 600⟩ 60 (fun _ => 0)
          (initial ℚ) (GLState.start ℚ (Calls ℚ)))
      = .ok (0, "" ++ framerate_text 3000) :=
  ⟨⟨rfl, by decide, by decide, by decide⟩,
   (C7_animation_rate (callsSem ℚ) 64 ⟨0, 0, 800, 600⟩ ⟨2000, 0, 800, 600⟩ 60 2000
      (fun _ => 0) (initial ℚ) (GLState.start ℚ (Calls ℚ))
      (by decide) rfl (by decide) (by decide) rfl (by decide)).2.2⟩

/-- The animation part of `display` leaves the OpenGL state as it found it:
the two rotations are applied to a matrix that the `glPopMatrix` of line 244
discards. -/
theorem display_spin_discarded {K M : Type} [LinearOrderedField K] [Mul M]
    (sem : XfSem K M) (LB : Nat) (now : Int) (s : State K)
    (g : GLState K M) (hm : g.mode = .modelview) :
    display_spin sem LB now s g = g := by
  cases g with
  | mk mode mv mvs pr prs nrm drawn =>
    simp only at hm
    subst hm
    unfold display_spin
    dsimp only
    by_cases ha : s.anim ≠ 0
    · rw [if_pos ha]
      rfl
    · rw [if_neg ha]
      rfl

/-- The camera part of `display` leaves the modelview stack selected. -/
theorem display_camera_mode {K M : Type} [LinearOrderedField K] [Mul M] [One M]
    (sem : XfSem K M) (s : State K) (g : GLState K M) :
    (display_camera sem s g).mode = .modelview :=
  rfl

/-- What `display` draws does not depend on `anim`, `anim_start` or the clock. -/
theorem display_ignores_anim {K M : Type} [LinearOrderedField K] [Mul M] [One M]
    (sem : XfSem K M) (LB : Nat) (now now2 : Int) (s : State K)
    (a t : Int) (g : GLState K M) :
    (display sem LB now s g).2 =
      (display sem LB now2 { s with anim := a, anim_start := t } g).2 := by
  unfold display
  dsimp only
  rw [display_spin_discarded sem LB now s _ (display_camera_mode sem s g),
    display_spin_discarded sem LB now2 _ _ (display_camera_mode sem _ g)]
  rfl

/-- C9. Evaluation of the code where the claim fails: with `anim = 1`,
`anim_start = 0` and the clock at 900 ms (`tm / 10 = 90` degrees), the seven
quad batches of the scene (six cuboids and the ground) are drawn under the
camera transform alone, which is not the camera transform followed by the two
rotations; what is drawn is what is drawn with the animation off. -/
theorem C9_spin_not_applied :
    quadTransforms
        (display (callsSem ℚ) 64 900 { initial ℚ with anim := 1 }
          (GLState.start ℚ (Calls ℚ))).2
      = List.replicate 7 (cameraTransform (callsSem ℚ) { initial ℚ with anim := 1 }) ∧
    (display (callsSem ℚ) 64 900 { initial ℚ with anim := 1 } (GLState.start ℚ (Calls ℚ))).2
      = (display (callsSem ℚ) 64 0 (initial ℚ) (GLState.start ℚ (Calls ℚ))).2 ∧
    cameraTransform (callsSem ℚ) { initial ℚ with anim := 1 }
      = ⟨[XfCall.translate 0 0 (-8), XfCall.rotate 25 1 0 0, XfCall.rotate 0 0 1 0,
          XfCall.translate 0 0 0]⟩ ∧
    cameraTransform (callsSem ℚ) { initial ℚ with anim := 1 }
      ≠ cameraTransform (callsSem ℚ) { initial ℚ with anim := 1 }
          * (callsSem ℚ).rotate (((900 : Int) : ℚ) / 10) 1 0 0
          * (callsSem ℚ).rotate (((900 : Int) : ℚ) / 10) 0 1 0 := by
  refine ⟨?_, ?_, ?_, ?_⟩
  · rfl
  · exact display_ignores_anim (callsSem ℚ) 64 900 0 (initial ℚ) 1 0 (GLState.start ℚ (Calls ℚ))
      |>.symm
  · rfl
  · decide

/-- The windings of the six quads of `DrawCube`, in source order: the top and
the bottom quad have the winding `-(Clength * Cbreadth)`, the other four
`Clength * Cheight` and `Cbreadth * Cheight`. -/
theorem DrawCube_winding {K : Type} [LinearOrderedField K] (cx cy cz l b h : K) :
    (DrawCube cx cy cz l b h).map Quad.winding =
      [-(l * b), -(l * b), l * h, l * h, b * h, b * h] := by
  simp only [DrawCube, List.map, Quad.winding, Vec3.sub, Vec3.cross, Vec3.dot]
  norm_num
  refine ⟨?_, ?_, ?_, ?_, ?_, ?_⟩ <;> ring

/-- C10. Evaluation of the code where the claim fails: for the first cuboid that
`display` draws, `DrawCube(-8, 3, -5, 3, 4, 7)`, the windings of the six quads
against their normals are `-12, -12, 21, 21, 28, 28`: the top and the bottom
quad are listed clockwise as seen from outside. -/
theorem C10_top_bottom_clockwise :
    (DrawCube (-8 : ℚ) 3 (-5) 3 4 7).map Quad.winding = [-12, -12, 21, 21, 28, 28] ∧
    ((DrawCube (-8 : ℚ) 3 (-5) 3 4 7).map Quad.normal)
      = [⟨0, 1, 0⟩, ⟨0, -1, 0⟩, ⟨0, 0, 1⟩, ⟨0, 0, -1⟩, ⟨-1, 0, 0⟩, ⟨1, 0, 0⟩] := by
  constructor
  · rw [DrawCube_winding]
    norm_num
  · rfl

end Opengl3d
